import Mathlib

/-!
Shallow embedding of the trend/streak analytics core of the daily-tracker
backend (the `GET /trends` handler in `src/main.py`, present in two
semantically identical variants at lines 2051-2133 and 2500-2580).

Modelling conventions:
* Calendar dates are integers (a day number); `timedelta(days = n)` is
  integer subtraction, and the SQL comparisons on `activity_date` are the
  corresponding integer comparisons.  The handler compares dates through
  their `YYYY-MM-DD` strings, which agree with date equality, so date
  equality is modelled directly.
* The activities table is a list of `ActivityRecord`.
* The averages the handler returns are one-decimal values, so they are
  modelled exactly as an integer number of tenths of a minute
  (`45.0` minutes is `450`, `0.0` is `0`).  SQL `AVG` over the grouped
  daily totals is `sqlAvg` (NULL on an empty set, else the exact mean
  kept as a numerator-denominator pair); the Python round-to-1-decimal
  with its falsy-to-zero guard, `round(x if truthy else 0, 1)`, is
  `pyRoundAvg`, built on `roundTenthsHalfEven` (round half to even, the
  rounding of Python `round`).
* Each `cursor.execute` of the handler is a `SqlStmt` run through
  `runStmt`, which threads the database state explicitly, so that the
  read-only character of the endpoint is a provable statement rather
  than a modelling assumption.
-/

/-- A row of the `activities` table (the fields the trend engine reads,
plus the optional mood rating of the data model). -/
structure ActivityRecord where
  userId : Nat
  category : String
  durationMinutes : Nat
  activityDate : Int
  moodRating : Option Nat := none
  deriving DecidableEq, Repr

/-- The fixed category table of `src/main.py` (lines 1476-1487): name,
icon, color, in the insertion order of the Python dict, which is the
iteration order of the `for category in CATEGORIES` loop. -/
def CATEGORIES : List (String × String × String) :=
  [("Sleep", "🛏", "#667eea"),
   ("Physical Activity/Exercise", "🏃‍♂", "#764ba2"),
   ("Nutrition/Meals", "🍎", "#f093fb"),
   ("Work/Productivity", "💼", "#f5576c"),
   ("Personal Care/Hygiene", "🧼", "#4facfe"),
   ("Social/Leisure", "🎉", "#00d4aa"),
   ("Household Chores/Maintenance", "🧹", "#ff6b6b"),
   ("Mindfulness/Mental Well-being", "🧘‍♀", "#a8e6cf"),
   ("Transportation/Commute", "🚗", "#ffd93d"),
   ("Learning/Skill Development", "📚", "#6c5ce7")]

/-- Rows matching `WHERE user_id = ? AND category = ?`. -/
def rowsFor (db : List ActivityRecord) (uid : Nat) (cat : String) :
    List ActivityRecord :=
  db.filter fun r => decide (r.userId = uid ∧ r.category = cat)

/-- Rows matching `WHERE user_id = ? AND category = ? AND activity_date >= ?`.
Note the filter is a lower bound only: the SQL has no upper bound on
`activity_date`. -/
def rowsSince (db : List ActivityRecord) (uid : Nat) (cat : String)
    (since : Int) : List ActivityRecord :=
  db.filter fun r => decide (r.userId = uid ∧ r.category = cat ∧ since ≤ r.activityDate)

/-- `SELECT activity_date, SUM(duration_minutes) ... WHERE ... AND
activity_date >= since GROUP BY activity_date ORDER BY activity_date`:
one `(date, total)` pair per distinct matching date, ascending. -/
def dailyTotals (db : List ActivityRecord) (uid : Nat) (cat : String)
    (since : Int) : List (Int × Nat) :=
  let rs := rowsSince db uid cat since
  (List.insertionSort (· ≤ ·) (rs.map (·.activityDate)).dedup).map fun d =>
    (d, ((rs.filter fun r => decide (r.activityDate = d)).map (·.durationMinutes)).sum)

/-- The distinct activity dates of `(uid, cat)`, in first-occurrence order. -/
def distinctDates (db : List ActivityRecord) (uid : Nat) (cat : String) :
    List Int :=
  ((rowsFor db uid cat).map (·.activityDate)).dedup

/-- `SELECT DISTINCT activity_date ... ORDER BY activity_date DESC`. -/
def distinctDatesDesc (db : List ActivityRecord) (uid : Nat) (cat : String) :
    List Int :=
  (List.insertionSort (· ≤ ·) (distinctDates db uid cat)).reverse

/-- SQL `AVG` over the daily totals: `NULL` (`none`) when there are no
rows, otherwise the exact mean `sum / length`, kept un-normalised as the
pair `(sum, length)`. -/
def sqlAvg (ts : List Nat) : Option (Nat × Nat) :=
  if ts.isEmpty then none else some (ts.sum, ts.length)

/-- The one-decimal rounding of the mean `s / c` (with `c > 0`), returned
in tenths: the nearest integer to `10 * s / c`, ties to even — the
rounding of Python `round(x, 1)`. -/
def roundTenthsHalfEven (s c : Nat) : Nat :=
  let q := 10 * s / c
  let r := 10 * s % c
  if 2 * r < c then q
  else if c < 2 * r then q + 1
  else if q % 2 = 0 then q else q + 1

/-- The Python post-processing of the `AVG` result, in tenths:
`round(avg if avg else 0, 1)` — a `NULL` (or falsy `0`) average becomes
`0`, then the value is rounded to one decimal. -/
def pyRoundAvg (a : Option (Nat × Nat)) : Nat :=
  match a with
  | none => 0
  | some (s, c) => if s = 0 then 0 else roundTenthsHalfEven s c

/-- The streak loop of the handler: iterate over the descending distinct
dates in lockstep with a cursor that starts at the reference date; count
while the next list element equals the cursor, stepping the cursor back a
day; stop at the first mismatch. -/
def streakWalk : List Int → Int → Nat
  | [], _ => 0
  | d :: ds, cur => if d = cur then streakWalk ds (cur - 1) + 1 else 0

/-- The `TrendData` response model (src/main.py lines 1468-1473);
the averages are in tenths of a minute and `data_points` entries are
`(date, minutes)` pairs. -/
structure TrendData where
  category : String
  weekly_average : Nat
  monthly_average : Nat
  streak_days : Nat
  data_points : List (Int × Nat)
  deriving DecidableEq, Repr

/-- The SQL statements the endpoints execute against the `activities`
table (the trends handler uses only the three `SELECT` forms; the write
statement is included so that reads and writes are distinguishable states
of the model, not a vacuity). -/
inductive SqlStmt where
  | selectAvgDaily (uid : Nat) (cat : String) (since : Int)
  | selectDistinctDatesDesc (uid : Nat) (cat : String)
  | selectDailyTotalsAsc (uid : Nat) (cat : String) (since : Int)
  | insertActivity (r : ActivityRecord)
  deriving DecidableEq, Repr

/-- A query result set. -/
inductive SqlResult where
  | avg (a : Option (Nat × Nat))
  | dates (ds : List Int)
  | totals (ts : List (Int × Nat))
  | ok
  deriving DecidableEq, Repr

def SqlResult.asAvg : SqlResult → Option (Nat × Nat)
  | .avg a => a
  | _ => none

def SqlResult.asDates : SqlResult → List Int
  | .dates ds => ds
  | _ => []

def SqlResult.asTotals : SqlResult → List (Int × Nat)
  | .totals ts => ts
  | _ => []

/-- Execute one statement: the returned first component is the database
state after the statement. `SELECT` statements leave it unchanged;
`INSERT` appends a row. -/
def runStmt (db : List ActivityRecord) : SqlStmt → List ActivityRecord × SqlResult
  | .selectAvgDaily uid cat since =>
      (db, .avg (sqlAvg ((dailyTotals db uid cat since).map (·.2))))
  | .selectDistinctDatesDesc uid cat => (db, .dates (distinctDatesDesc db uid cat))
  | .selectDailyTotalsAsc uid cat since => (db, .totals (dailyTotals db uid cat since))
  | .insertActivity r => (db ++ [r], .ok)

/-- One iteration of the per-category loop of the trends handler, with the
database state threaded through the four `cursor.execute` calls exactly as
the code issues them: monthly average (since `D - 30`), weekly average
(since `D - 7`), descending distinct dates walked for the streak, and the
ascending daily totals since `D - 7` as data points. `D` is the reference
date (`date.today()` in the code). -/
def computeTrendSt (db : List ActivityRecord) (uid : Nat) (cat : String)
    (D : Int) : List ActivityRecord × TrendData :=
  let s1 := runStmt db (.selectAvgDaily uid cat (D - 30))
  let monthly_avg := pyRoundAvg s1.2.asAvg
  let s2 := runStmt s1.1 (.selectAvgDaily uid cat (D - 7))
  let weekly_avg := pyRoundAvg s2.2.asAvg
  let s3 := runStmt s2.1 (.selectDistinctDatesDesc uid cat)
  let streak := streakWalk s3.2.asDates D
  let s4 := runStmt s3.1 (.selectDailyTotalsAsc uid cat (D - 7))
  (s4.1, { category := cat, weekly_average := weekly_avg,
           monthly_average := monthly_avg, streak_days := streak,
           data_points := s4.2.asTotals })

/-- The trend result for one category. -/
def computeTrend (db : List ActivityRecord) (uid : Nat) (cat : String)
    (D : Int) : TrendData :=
  (computeTrendSt db uid cat D).2

/-- The whole `GET /trends` handler: loop over the fixed category table,
threading the database state, and collect the per-category results in
order. -/
def get_trendsSt (db : List ActivityRecord) (uid : Nat) (D : Int) :
    List ActivityRecord × List TrendData :=
  CATEGORIES.foldl
    (fun acc c =>
      ((computeTrendSt acc.1 uid c.1 D).1, acc.2 ++ [(computeTrendSt acc.1 uid c.1 D).2]))
    (db, [])

/-- The response body of `GET /trends`. -/
def get_trends (db : List ActivityRecord) (uid : Nat) (D : Int) :
    List TrendData :=
  (get_trendsSt db uid D).2

/-! ### Specification-side definitions

These follow the words of the spec and of the claims (active days, per-day
totals, windowed means, consecutive-day counts); the refinement theorems
compare them with the handler embedding above. -/

/-- An active day: at least one record of `(uid, cat)` dated `d`. -/
def isActive (db : List ActivityRecord) (uid : Nat) (cat : String)
    (d : Int) : Prop :=
  ∃ r ∈ db, r.userId = uid ∧ r.category = cat ∧ r.activityDate = d

instance (db : List ActivityRecord) (uid : Nat) (cat : String) (d : Int) :
    Decidable (isActive db uid cat d) :=
  List.decidableBEx _ db

/-- The total minutes attributed to `(uid, cat)` on day `d`. -/
def dayTotal (db : List ActivityRecord) (uid : Nat) (cat : String)
    (d : Int) : Nat :=
  ((db.filter fun r =>
      decide (r.userId = uid ∧ r.category = cat ∧ r.activityDate = d)).map
    (·.durationMinutes)).sum

/-- The distinct days on or after `since` with at least one record. -/
def activeDaysSince (db : List ActivityRecord) (uid : Nat) (cat : String)
    (since : Int) : List Int :=
  ((rowsSince db uid cat since).map (·.activityDate)).dedup

/-- Mean of the per-day totals over the active days on or after `since`,
rounded to one decimal (in tenths), `0` when there is no active day (the
average the code actually produces: lower-bounded window, divisor the
active-day count). -/
def specSinceAverage (db : List ActivityRecord) (uid : Nat) (cat : String)
    (since : Int) : Nat :=
  let ds := activeDaysSince db uid cat since
  if ds.isEmpty then 0
  else roundTenthsHalfEven (ds.map fun d => dayTotal db uid cat d).sum ds.length

/-- The distinct days in the closed window `[lo, hi]` with at least one
record. -/
def activeDaysBetween (db : List ActivityRecord) (uid : Nat) (cat : String)
    (lo hi : Int) : List Int :=
  ((db.filter fun r =>
      decide (r.userId = uid ∧ r.category = cat ∧
        lo ≤ r.activityDate ∧ r.activityDate ≤ hi)).map (·.activityDate)).dedup

/-- Mean of the per-day totals over the active days of the closed window
`[lo, hi]`, rounded to one decimal (in tenths), `0` when there is no such
day (the average as the claim words it: a trailing window ending at the
reference date). -/
def specWindowAverage (db : List ActivityRecord) (uid : Nat) (cat : String)
    (lo hi : Int) : Nat :=
  let ds := activeDaysBetween db uid cat lo hi
  if ds.isEmpty then 0
  else roundTenthsHalfEven (ds.map fun d => dayTotal db uid cat d).sum ds.length

/-- The number of consecutive calendar days ending at `D` on each of which
`(uid, cat)` has at least one record: the length of the maximal prefix of
`D, D - 1, D - 2, ...` made of active days.  The scan range
`0, ..., |distinctDates|` never binds, because `k + 1` consecutive active
days are `k + 1` distinct dates. -/
def specConsecCount (db : List ActivityRecord) (uid : Nat) (cat : String)
    (D : Int) : Nat :=
  ((List.range ((distinctDates db uid cat).length + 1)).takeWhile fun k =>
    decide (isActive db uid cat (D - k))).length

/-! ### Concrete activity logs used by counterexamples and witnesses -/

/-- One future-dated record: user 1 logged 100 minutes of Sleep on day 5,
the reference date being day 0 (the create endpoint accepts any
`activity_date`, with no upper bound, so such a log is reachable). -/
def exLogFuture : List ActivityRecord := [⟨1, "Sleep", 100, 5, none⟩]

/-- Activity on the reference date (day 0) and on a future day (day 1). -/
def exLogRefAndFuture : List ActivityRecord :=
  [⟨1, "Sleep", 10, 1, none⟩, ⟨1, "Sleep", 10, 0, none⟩]

/-- An unbroken 32-day run of Sleep records on days 0..31. -/
def exLog32 : List ActivityRecord :=
  (List.range 32).map fun i => ⟨1, "Sleep", 10, (i : Int), none⟩

/-- Two active days in the trailing week of reference day 10: 30 minutes
on day 4 (D - 6) and 60 minutes on day 6 (D - 4). -/
def exLogTwoDays : List ActivityRecord :=
  [⟨1, "Sleep", 30, 4, none⟩, ⟨1, "Sleep", 60, 6, none⟩]

/-- Activity on days 10, 9, 8 and 6: a 3-day streak at reference day 10,
with the gap at day 7. -/
def exLogStreak3 : List ActivityRecord :=
  [⟨1, "Sleep", 10, 10, none⟩, ⟨1, "Sleep", 10, 9, none⟩,
   ⟨1, "Sleep", 10, 8, none⟩, ⟨1, "Sleep", 10, 6, none⟩]

/-- A log whose only record belongs to another user (user 2), so user 1
has no Sleep activity at all. -/
def exLogOtherUser : List ActivityRecord := [⟨2, "Sleep", 30, 0, none⟩]

/-! ### Basic lemmas about the embedding -/

/-- Unfolding of the per-category computation: the four queries the
handler issues, assembled into the response record. -/
theorem computeTrend_def (db : List ActivityRecord) (uid : Nat) (cat : String) (D : Int) :
    computeTrend db uid cat D =
      { category := cat,
        weekly_average := pyRoundAvg (sqlAvg ((dailyTotals db uid cat (D - 7)).map (·.2))),
        monthly_average := pyRoundAvg (sqlAvg ((dailyTotals db uid cat (D - 30)).map (·.2))),
        streak_days := streakWalk (distinctDatesDesc db uid cat) D,
        data_points := dailyTotals db uid cat (D - 7) } := rfl

theorem roundTenthsHalfEven_zero (c : Nat) (hc : 0 < c) :
    roundTenthsHalfEven 0 c = 0 := by
  simp [roundTenthsHalfEven, hc]

theorem mem_activeDaysSince {db : List ActivityRecord} {uid : Nat} {cat : String}
    {since d : Int} :
    d ∈ activeDaysSince db uid cat since ↔ since ≤ d ∧ isActive db uid cat d := by
  unfold activeDaysSince rowsSince isActive
  simp only [List.mem_dedup, List.mem_map, List.mem_filter, decide_eq_true_eq]
  constructor
  · rintro ⟨r, ⟨hr, h1, h2, h3⟩, rfl⟩
    exact ⟨h3, r, hr, h1, h2, rfl⟩
  · rintro ⟨hle, r, hr, h1, h2, rfl⟩
    exact ⟨r, ⟨hr, h1, h2, hle⟩, rfl⟩

theorem mem_distinctDates {db : List ActivityRecord} {uid : Nat} {cat : String} {d : Int} :
    d ∈ distinctDates db uid cat ↔ isActive db uid cat d := by
  unfold distinctDates rowsFor isActive
  simp only [List.mem_dedup, List.mem_map, List.mem_filter, decide_eq_true_eq]
  constructor
  · rintro ⟨r, ⟨hr, h1, h2⟩, rfl⟩
    exact ⟨r, hr, h1, h2, rfl⟩
  · rintro ⟨r, hr, h1, h2, rfl⟩
    exact ⟨r, ⟨hr, h1, h2⟩, rfl⟩

theorem rowsSince_filter_date (db : List ActivityRecord) (uid : Nat) (cat : String)
    {since d : Int} (h : since ≤ d) :
    (rowsSince db uid cat since).filter (fun r => decide (r.activityDate = d)) =
      db.filter fun r => decide (r.userId = uid ∧ r.category = cat ∧ r.activityDate = d) := by
  unfold rowsSince
  rw [List.filter_filter]
  refine List.filter_congr fun r _ => ?_
  rw [← Bool.decide_and, decide_eq_decide]
  constructor
  · rintro ⟨hd, h1, h2, _⟩
    exact ⟨h1, h2, hd⟩
  · rintro ⟨h1, h2, hd⟩
    exact ⟨hd, h1, h2, le_of_le_of_eq h hd.symm⟩

/-- The grouped daily-totals query is the sorted list of active days,
each paired with its per-day total. -/
theorem dailyTotals_eq (db : List ActivityRecord) (uid : Nat) (cat : String) (since : Int) :
    dailyTotals db uid cat since =
      (List.insertionSort (· ≤ ·) (activeDaysSince db uid cat since)).map fun d =>
        (d, dayTotal db uid cat d) := by
  unfold dailyTotals activeDaysSince
  refine List.map_congr_left fun d hd => ?_
  have hmem : d ∈ ((rowsSince db uid cat since).map (·.activityDate)).dedup := by
    simpa using hd
  have hsince : since ≤ d :=
    (mem_activeDaysSince.mp (show d ∈ activeDaysSince db uid cat since from hmem)).1
  rw [rowsSince_filter_date db uid cat hsince]
  rfl

/-- The rounded average only depends on the multiset of totals. -/
theorem pyRoundAvg_sqlAvg_congr {ts us : List Nat} (h : ts.Perm us) :
    pyRoundAvg (sqlAvg ts) = pyRoundAvg (sqlAvg us) := by
  unfold sqlAvg
  have hempty : ts.isEmpty = us.isEmpty := by
    rcases ts with _ | ⟨a, ts2⟩
    · rw [h.nil_eq]
    · rcases us with _ | ⟨b, us2⟩
      · exact absurd h.length_eq (by simp)
      · rfl
  rw [hempty, h.sum_eq, h.length_eq]

/-- The average the handler computes from the grouped daily totals is the
active-day mean: sum of per-day totals over the days with at least one
record on or after `since`, divided by the number of such days, rounded to
one decimal; `0` when there is no such day. -/
theorem avg_eq_specSince (db : List ActivityRecord) (uid : Nat) (cat : String) (since : Int) :
    pyRoundAvg (sqlAvg ((dailyTotals db uid cat since).map (·.2))) =
      specSinceAverage db uid cat since := by
  rw [dailyTotals_eq, List.map_map]
  have hfun : ((·.2) ∘ fun d => ((d : Int), dayTotal db uid cat d)) =
      fun d => dayTotal db uid cat d := rfl
  rw [hfun]
  rw [pyRoundAvg_sqlAvg_congr
    ((List.perm_insertionSort (· ≤ ·) (activeDaysSince db uid cat since)).map
      (fun d => dayTotal db uid cat d))]
  by_cases hds : activeDaysSince db uid cat since = []
  · rw [hds]
    simp [specSinceAverage, sqlAvg, pyRoundAvg, hds]
  · have hlen : 0 < (activeDaysSince db uid cat since).length :=
      List.length_pos.mpr hds
    have hne : ((activeDaysSince db uid cat since).map fun d => dayTotal db uid cat d) ≠ [] := by
      simpa using hds
    by_cases hsum : ((activeDaysSince db uid cat since).map fun d => dayTotal db uid cat d).sum = 0
    · simp [specSinceAverage, sqlAvg, pyRoundAvg, List.isEmpty_iff, hne, hds, hsum,
        roundTenthsHalfEven_zero _ hlen]
    · simp [specSinceAverage, sqlAvg, pyRoundAvg, List.isEmpty_iff, hne, hds, hsum]

theorem streakWalk_le_length (L : List Int) (cur : Int) :
    streakWalk L cur ≤ L.length := by
  induction L generalizing cur with
  | nil => simp [streakWalk]
  | cons d ds ih =>
    by_cases h : d = cur
    · simpa [streakWalk, h] using Nat.succ_le_succ (ih (cur - 1))
    · simp [streakWalk, h]

/-- On a strictly descending list bounded above by the cursor, the
lockstep walk counts exactly the consecutive run `cur, cur - 1, ...` of
list members: every day it counts is in the list, and the first day past
the count is not. -/
theorem streakWalk_spec (L : List Int) (cur : Int)
    (hsort : L.Pairwise (· > ·)) (hle : ∀ d ∈ L, d ≤ cur) :
    (∀ k : Nat, k < streakWalk L cur → cur - (k : Int) ∈ L) ∧
      (cur - (streakWalk L cur : Int)) ∉ L := by
  induction L generalizing cur with
  | nil =>
    exact ⟨fun k hk => absurd hk (by simp [streakWalk]), by simp⟩
  | cons d ds ih =>
    rw [List.pairwise_cons] at hsort
    obtain ⟨hd, hds⟩ := hsort
    by_cases h : d = cur
    · subst h
      have hle2 : ∀ e ∈ ds, e ≤ d - 1 := fun e he => by
        have := hd e he
        omega
      obtain ⟨ha, hb⟩ := ih (d - 1) hds hle2
      have hw : streakWalk (d :: ds) d = streakWalk ds (d - 1) + 1 := by
        simp [streakWalk]
      rw [hw]
      constructor
      · intro k hk
        match k with
        | 0 => simp
        | Nat.succ j =>
          have hj : j < streakWalk ds (d - 1) := by omega
          have hmem := ha j hj
          have heq : d - ((j + 1 : Nat) : Int) = d - 1 - (j : Int) := by
            push_cast
            ring
          rw [heq]
          exact List.mem_cons_of_mem d hmem
      · intro hmem
        rcases List.mem_cons.mp hmem with heq | hmem2
        · omega
        · have heq2 : d - ((streakWalk ds (d - 1) + 1 : Nat) : Int) =
              d - 1 - (streakWalk ds (d - 1) : Int) := by
            push_cast
            ring
          rw [heq2] at hmem2
          exact hb hmem2
    · have hw : streakWalk (d :: ds) cur = 0 := by
        simp [streakWalk, h]
      rw [hw]
      refine ⟨fun k hk => absurd hk (by omega), ?_⟩
      simp only [Nat.cast_zero, sub_zero]
      intro hmem
      rcases List.mem_cons.mp hmem with heq | hmem2
      · exact h heq.symm
      · have h1 := hd cur hmem2
        have h2 := hle d (List.mem_cons_self d ds)
        omega

theorem distinctDatesDesc_pairwise (db : List ActivityRecord) (uid : Nat) (cat : String) :
    (distinctDatesDesc db uid cat).Pairwise (· > ·) := by
  unfold distinctDatesDesc
  rw [List.pairwise_reverse]
  have hnodup : (List.insertionSort (· ≤ ·) (distinctDates db uid cat)).Nodup :=
    ((List.perm_insertionSort (· ≤ ·) (distinctDates db uid cat)).nodup_iff).mpr
      (List.nodup_dedup _)
  exact (List.sorted_insertionSort (· ≤ ·) (distinctDates db uid cat)).lt_of_le hnodup

theorem mem_distinctDatesDesc {db : List ActivityRecord} {uid : Nat} {cat : String}
    {d : Int} :
    d ∈ distinctDatesDesc db uid cat ↔ isActive db uid cat d := by
  unfold distinctDatesDesc
  rw [List.mem_reverse, List.mem_insertionSort]
  exact mem_distinctDates

/-- The category loop of the handler threads the database state through
unchanged and collects one `computeTrend` result per category, in table
order. -/
theorem get_trendsSt_eq (db : List ActivityRecord) (uid : Nat) (D : Int) :
    get_trendsSt db uid D = (db, CATEGORIES.map fun c => computeTrend db uid c.1 D) := by
  suffices h : ∀ (cats : List (String × String × String)) (db0 : List ActivityRecord)
      (acc : List TrendData),
      cats.foldl
        (fun acc c =>
          ((computeTrendSt acc.1 uid c.1 D).1, acc.2 ++ [(computeTrendSt acc.1 uid c.1 D).2]))
        (db0, acc) =
      (db0, acc ++ cats.map fun c => computeTrend db0 uid c.1 D) by
    simpa [get_trendsSt] using h CATEGORIES db []
  intro cats
  induction cats with
  | nil =>
    intro db0 acc
    simp
  | cons c cats ih =>
    intro db0 acc
    rw [List.foldl_cons]
    exact (ih db0 (acc ++ [computeTrend db0 uid c.1 D])).trans
      (by rw [List.map_cons, List.append_assoc]; rfl)

/-! ### Claim theorems -/

/-- C1 (counterexample): with a single record dated 5 days after the
reference date 0, the handler returns a monthly average of 100.0 minutes
(1000 tenths), while the mean over the active days of the trailing 30-day
window `[-30, 0]` is 0.0 — no day of that window has a record.  The SQL
filter has no upper bound, so the future-dated day is averaged in, and
the claim as stated fails. -/
theorem trends_monthly_trailing_window_cex :
    (computeTrend exLogFuture 1 "Sleep" 0).monthly_average = 1000 ∧
      specWindowAverage exLogFuture 1 "Sleep" (0 - 30) 0 = 0 := by
  decide

/-- C1 (amended): for every user, category and reference date the monthly
average equals the arithmetic mean of the per-day totals over exactly the
days on or after `referenceDate - 30` that have at least one record (the
code applies no upper bound, so days after the reference date count too),
rounded to one decimal; it is 0.0 when no such day exists, and the
divisor is always the count of those active days, never the fixed window
length. -/
theorem trends_monthly_active_day_average (db : List ActivityRecord) (uid : Nat)
    (cat : String) (D : Int) :
    (computeTrend db uid cat D).monthly_average = specSinceAverage db uid cat (D - 30) :=
  avg_eq_specSince db uid cat (D - 30)

/-- C2: when the daily-totals collaborator reports exactly two active
days in the trailing week — 30 minutes on `D - 6` and 60 minutes on
`D - 4` — the weekly average is 45.0 minutes (450 tenths), the mean over
the two active days, not 90/7. -/
theorem trends_weekly_two_day_mean (db : List ActivityRecord) (uid : Nat)
    (cat : String) (D : Int)
    (h : dailyTotals db uid cat (D - 7) = [(D - 6, 30), (D - 4, 60)]) :
    (computeTrend db uid cat D).weekly_average = 450 := by
  have hw : (computeTrend db uid cat D).weekly_average =
      pyRoundAvg (sqlAvg ((dailyTotals db uid cat (D - 7)).map (·.2))) := rfl
  rw [hw, h]
  simp [sqlAvg, pyRoundAvg, roundTenthsHalfEven]

/-- C2 (witness): the two-record log realises the hypothesis at reference
date 10 and the handler indeed returns 45.0. -/
theorem trends_weekly_two_day_mean_witness :
    dailyTotals exLogTwoDays 1 "Sleep" (10 - 7) = [(10 - 6, 30), (10 - 4, 60)] ∧
      (computeTrend exLogTwoDays 1 "Sleep" 10).weekly_average = 450 :=
  ⟨by decide, trends_weekly_two_day_mean exLogTwoDays 1 "Sleep" 10 (by decide)⟩

/-- C3 (counterexample): with records on day 1 (a future date) and on the
reference date 0, the lockstep walk compares the head of the descending
date list (day 1) with the cursor (day 0), mismatches, and returns streak
0 — but the number of consecutive calendar days ending at the reference
date with at least one record is 1, so the claimed characterisation fails
on logs with future-dated records. -/
theorem trends_streak_future_date_cex :
    (computeTrend exLogRefAndFuture 1 "Sleep" 0).streak_days = 0 ∧
      specConsecCount exLogRefAndFuture 1 "Sleep" 0 = 1 := by
  decide

/-- C3 (amended): for logs with no record dated after the reference date,
the streak is the count of consecutive calendar days ending at the
reference date on each of which the user has at least one record: every
day it counts back from the reference date is active, the next day past
the count is not, and a reference date with no entry gives streak 0. -/
theorem trends_streak_consecutive (db : List ActivityRecord) (uid : Nat)
    (cat : String) (D : Int)
    (h : ∀ r ∈ db, r.userId = uid → r.category = cat → r.activityDate ≤ D) :
    (∀ k : Nat, k < (computeTrend db uid cat D).streak_days →
        isActive db uid cat (D - (k : Int))) ∧
      ¬ isActive db uid cat (D - ((computeTrend db uid cat D).streak_days : Int)) ∧
      (¬ isActive db uid cat D → (computeTrend db uid cat D).streak_days = 0) := by
  have hle : ∀ d ∈ distinctDatesDesc db uid cat, d ≤ D := by
    intro d hd
    obtain ⟨r, hr, h1, h2, h3⟩ := mem_distinctDatesDesc.mp hd
    exact h3 ▸ h r hr h1 h2
  obtain ⟨ha, hb⟩ := streakWalk_spec (distinctDatesDesc db uid cat) D
    (distinctDatesDesc_pairwise db uid cat) hle
  have hstreak : (computeTrend db uid cat D).streak_days =
      streakWalk (distinctDatesDesc db uid cat) D := rfl
  refine ⟨?_, ?_, ?_⟩
  · intro k hk
    exact mem_distinctDatesDesc.mp (ha k (hstreak ▸ hk))
  · rw [hstreak]
    exact fun hact => hb (mem_distinctDatesDesc.mpr hact)
  · intro hnot
    by_contra hne
    have hpos : 0 < (computeTrend db uid cat D).streak_days := Nat.pos_of_ne_zero hne
    have hmem := ha 0 (hstreak ▸ hpos)
    simp only [Nat.cast_zero, sub_zero] at hmem
    exact hnot (mem_distinctDatesDesc.mp hmem)

/-- C3 (witness): with activity on days 10, 9, 8 and a gap at day 7, the
streak at reference date 10 is exactly 3 and satisfies the consecutive-day
characterisation. -/
theorem trends_streak_consecutive_witness :
    (computeTrend exLogStreak3 1 "Sleep" 10).streak_days = 3 ∧
      (∀ r ∈ exLogStreak3, r.userId = 1 → r.category = "Sleep" → r.activityDate ≤ 10) ∧
      ((∀ k : Nat, k < (computeTrend exLogStreak3 1 "Sleep" 10).streak_days →
          isActive exLogStreak3 1 "Sleep" (10 - (k : Int))) ∧
        ¬ isActive exLogStreak3 1 "Sleep"
            (10 - ((computeTrend exLogStreak3 1 "Sleep" 10).streak_days : Int)) ∧
        (¬ isActive exLogStreak3 1 "Sleep" 10 →
          (computeTrend exLogStreak3 1 "Sleep" 10).streak_days = 0)) :=
  ⟨by decide, by decide, trends_streak_consecutive exLogStreak3 1 "Sleep" 10 (by decide)⟩

/-- C4 (counterexample): an unbroken 32-day run of records gives streak 32
at reference date 31 — the streak is not bounded by 31, because the
distinct-dates query has no window. -/
theorem trends_streak_exceeds_31_cex :
    ¬ ((computeTrend exLog32 1 "Sleep" 31).streak_days ≤ 31) := by
  decide

/-- C4 (amended): for all inputs the streak is non-negative and bounded by
the number of distinct activity dates of the user and category (the walk
consumes at most the whole descending date list); no fixed 31-day bound
holds. -/
theorem trends_streak_bounds (db : List ActivityRecord) (uid : Nat)
    (cat : String) (D : Int) :
    0 ≤ (computeTrend db uid cat D).streak_days ∧
      (computeTrend db uid cat D).streak_days ≤ (distinctDates db uid cat).length := by
  refine ⟨Nat.zero_le _, ?_⟩
  have h : (computeTrend db uid cat D).streak_days =
      streakWalk (distinctDatesDesc db uid cat) D := rfl
  have h2 := streakWalk_le_length (distinctDatesDesc db uid cat) D
  have h3 : (distinctDatesDesc db uid cat).length = (distinctDates db uid cat).length := by
    unfold distinctDatesDesc
    rw [List.length_reverse, List.length_insertionSort]
  omega

/-- C5: for a user and category with no activity records at all, the
handler returns weekly average 0.0, monthly average 0.0, streak 0 and an
empty data-point list; the empty result set is an ordinary value, not an
error (the embedding is a total function). -/
theorem trends_empty_category_zero (db : List ActivityRecord) (uid : Nat)
    (cat : String) (D : Int)
    (h : ∀ r ∈ db, ¬ (r.userId = uid ∧ r.category = cat)) :
    computeTrend db uid cat D =
      { category := cat, weekly_average := 0, monthly_average := 0,
        streak_days := 0, data_points := [] } := by
  have hsince : ∀ s : Int, rowsSince db uid cat s = [] := by
    intro s
    rw [rowsSince, List.filter_eq_nil_iff]
    intro r hr
    simp only [decide_eq_true_eq]
    rintro ⟨h1, h2, _⟩
    exact h r hr ⟨h1, h2⟩
  have hfor : rowsFor db uid cat = [] := by
    rw [rowsFor, List.filter_eq_nil_iff]
    intro r hr
    simp only [decide_eq_true_eq]
    rintro ⟨h1, h2⟩
    exact h r hr ⟨h1, h2⟩
  have hdt : ∀ s : Int, dailyTotals db uid cat s = [] := by
    intro s
    simp [dailyTotals, hsince s]
  have hdd : distinctDatesDesc db uid cat = [] := by
    simp [distinctDatesDesc, distinctDates, hfor]
  rw [computeTrend_def, hdt (D - 7), hdt (D - 30), hdd]
  rfl

/-- C5 (witness): a log holding only a record of another user gives user 1
the all-zero trend result for Sleep. -/
theorem trends_empty_category_zero_witness :
    (∀ r ∈ exLogOtherUser, ¬ (r.userId = 1 ∧ r.category = "Sleep")) ∧
      computeTrend exLogOtherUser 1 "Sleep" 0 =
        { category := "Sleep", weekly_average := 0, monthly_average := 0,
          streak_days := 0, data_points := [] } :=
  ⟨by decide, trends_empty_category_zero exLogOtherUser 1 "Sleep" 0 (by decide)⟩

/-- C6 (counterexample): with a single record dated 5 days after the
reference date 0, the data points contain an entry for day 5, which is not
a day of the trailing 7-day window (it is after the reference date): the
query only bounds dates from below. -/
theorem trends_datapoints_future_cex :
    (5 : Int) ∈ (computeTrend exLogFuture 1 "Sleep" 0).data_points.map (·.1) ∧
      ¬ ((5 : Int) ≤ (0 : Int)) := by
  decide

/-- C6 (amended): the data points are sorted in strictly ascending date
order and contain exactly one entry per day on or after
`referenceDate - 7` that has at least one record (the code applies no
upper bound, so days after the reference date appear too); days absent
from the daily-totals result are not zero-filled. -/
theorem trends_datapoints_sorted_active (db : List ActivityRecord) (uid : Nat)
    (cat : String) (D : Int) :
    ((computeTrend db uid cat D).data_points.map (·.1)).Sorted (· < ·) ∧
      ∀ d : Int, d ∈ (computeTrend db uid cat D).data_points.map (·.1) ↔
        (D - 7 ≤ d ∧ isActive db uid cat d) := by
  have hd : (computeTrend db uid cat D).data_points = dailyTotals db uid cat (D - 7) := rfl
  rw [hd, dailyTotals_eq, List.map_map]
  have hfun : ((·.1) ∘ fun d => ((d : Int), dayTotal db uid cat d)) = id := rfl
  rw [hfun, List.map_id]
  constructor
  · have hnodup : (List.insertionSort (· ≤ ·) (activeDaysSince db uid cat (D - 7))).Nodup :=
      ((List.perm_insertionSort (· ≤ ·) (activeDaysSince db uid cat (D - 7))).nodup_iff).mpr
        (List.nodup_dedup _)
    exact (List.sorted_insertionSort (· ≤ ·) (activeDaysSince db uid cat (D - 7))).lt_of_le
      hnodup
  · intro d
    rw [List.mem_insertionSort]
    exact mem_activeDaysSince

/-- C7: the trend computation is deterministic — two invocations over the
same unchanged log agree in every field of every category result, and the
whole response lists are equal. -/
theorem trends_deterministic (db1 db2 : List ActivityRecord) (uid : Nat)
    (cat : String) (D : Int) (h : db1 = db2) :
    (computeTrend db1 uid cat D).category = (computeTrend db2 uid cat D).category ∧
      (computeTrend db1 uid cat D).weekly_average =
        (computeTrend db2 uid cat D).weekly_average ∧
      (computeTrend db1 uid cat D).monthly_average =
        (computeTrend db2 uid cat D).monthly_average ∧
      (computeTrend db1 uid cat D).streak_days = (computeTrend db2 uid cat D).streak_days ∧
      (computeTrend db1 uid cat D).data_points = (computeTrend db2 uid cat D).data_points ∧
      get_trends db1 uid D = get_trends db2 uid D := by
  subst h
  exact ⟨rfl, rfl, rfl, rfl, rfl, rfl⟩

/-- C7 (witness): instantiated at the two-record log. -/
theorem trends_deterministic_witness :
    exLogTwoDays = exLogTwoDays ∧
      ((computeTrend exLogTwoDays 1 "Sleep" 10).category =
          (computeTrend exLogTwoDays 1 "Sleep" 10).category ∧
        (computeTrend exLogTwoDays 1 "Sleep" 10).weekly_average =
          (computeTrend exLogTwoDays 1 "Sleep" 10).weekly_average ∧
        (computeTrend exLogTwoDays 1 "Sleep" 10).monthly_average =
          (computeTrend exLogTwoDays 1 "Sleep" 10).monthly_average ∧
        (computeTrend exLogTwoDays 1 "Sleep" 10).streak_days =
          (computeTrend exLogTwoDays 1 "Sleep" 10).streak_days ∧
        (computeTrend exLogTwoDays 1 "Sleep" 10).data_points =
          (computeTrend exLogTwoDays 1 "Sleep" 10).data_points ∧
        get_trends exLogTwoDays 1 10 = get_trends exLogTwoDays 1 10) :=
  ⟨rfl, trends_deterministic exLogTwoDays exLogTwoDays 1 "Sleep" 10 rfl⟩

/-- C8: the trends computation is read-only — both the per-category
computation and the whole handler return the database state they were
given, unchanged; every statement they execute is a `SELECT` form of
`runStmt`, which never inserts, updates or deletes a record. -/
theorem trends_read_only (db : List ActivityRecord) (uid : Nat)
    (cat : String) (D : Int) :
    (computeTrendSt db uid cat D).1 = db ∧ (get_trendsSt db uid D).1 = db := by
  refine ⟨rfl, ?_⟩
  rw [get_trendsSt_eq]

/-- C9: the response always holds exactly one entry per category of the
fixed 10-category table, in table order, whatever the log contents. -/
theorem trends_fixed_ten_categories (db : List ActivityRecord) (uid : Nat) (D : Int) :
    (get_trends db uid D).length = 10 ∧
      (get_trends db uid D).map (·.category) = CATEGORIES.map (·.1) := by
  have h : get_trends db uid D = CATEGORIES.map fun c => computeTrend db uid c.1 D := by
    unfold get_trends
    rw [get_trendsSt_eq]
  rw [h, List.map_map, List.length_map]
  exact ⟨rfl, rfl⟩

/-- C10: whenever the data points are non-empty, the weekly average is the
mean of the minutes values of those same data points, rounded to one
decimal — both are computed from the identical daily-totals query over the
trailing 7-day filter. -/
theorem trends_weekly_matches_datapoints (db : List ActivityRecord) (uid : Nat)
    (cat : String) (D : Int)
    (h : (computeTrend db uid cat D).data_points ≠ []) :
    (computeTrend db uid cat D).weekly_average =
      roundTenthsHalfEven ((computeTrend db uid cat D).data_points.map (·.2)).sum
        (computeTrend db uid cat D).data_points.length := by
  have hd : (computeTrend db uid cat D).data_points = dailyTotals db uid cat (D - 7) := rfl
  have hw : (computeTrend db uid cat D).weekly_average =
      pyRoundAvg (sqlAvg ((dailyTotals db uid cat (D - 7)).map (·.2))) := rfl
  rw [hd] at h
  rw [hw, hd]
  have hne : ((dailyTotals db uid cat (D - 7)).map (·.2)) ≠ [] := by
    simpa using h
  have hlen : 0 < (dailyTotals db uid cat (D - 7)).length := List.length_pos.mpr h
  by_cases hs : ((dailyTotals db uid cat (D - 7)).map (·.2)).sum = 0
  · simp [sqlAvg, pyRoundAvg, List.isEmpty_eq_false.mpr hne, hs,
      roundTenthsHalfEven_zero _ hlen]
  · simp [sqlAvg, pyRoundAvg, List.isEmpty_eq_false.mpr hne, hs]

/-- C10 (witness): instantiated at the two-record log, where the weekly
average 45.0 equals the rounded mean of the data-point minutes 30 and 60. -/
theorem trends_weekly_matches_datapoints_witness :
    (computeTrend exLogTwoDays 1 "Sleep" 10).data_points ≠ [] ∧
      (computeTrend exLogTwoDays 1 "Sleep" 10).weekly_average =
        roundTenthsHalfEven
          ((computeTrend exLogTwoDays 1 "Sleep" 10).data_points.map (·.2)).sum
          (computeTrend exLogTwoDays 1 "Sleep" 10).data_points.length :=
  ⟨by decide, trends_weekly_matches_datapoints exLogTwoDays 1 "Sleep" 10 (by decide)⟩
